import Mathlib

/-!
Shallow embedding of the word-guessing game server (`src/api/index.py`).

The Python module keeps one global mutable dictionary `GAME`; we model it as
an explicit `Game` record threaded through the three route handlers
`start_game`, `next_hint` and `guess`.  The external text generator
(`call_model`) is modelled as an oracle `gen : List Message → String` passed
to each operation; randomness (`random.choice`, `random.randint`,
`random.sample`) is modelled by oracle parameters: an index `c` for
`random.choice`, and a list of positions `idxs` (in selection order) for
`random.sample`, whose admissible draws are captured by `SampleDraw`.
-/

/-- A chat message, as in the Python dicts `{"role": ..., "content": ...}`. -/

structure Message where
  role : String
  content : String
deriving DecidableEq

/-- The per-win statistics record appended to `GAME["session_history"]`. -/
structure Stats where
  level : Nat
  difficulty : String
  word : String
  guesses : Nat
  hints : Nat
  score : Nat
deriving DecidableEq

/-- The global game/session state dictionary `GAME`. -/
structure Game where
  word : Option String
  hints : List String
  hint_index : Nat
  question_index : Nat
  messages : List Message
  finished : Bool
  used_words : Finset String
  level : Nat
  session_history : List Stats
  current_guesses : Nat
  current_hints : Nat

/-- The static catalog `WORDS`: identifier paired with its ordered hint list
(Python dicts preserve insertion order, so a list of pairs is faithful). -/

def WORDS : List (String × List String) := [
  ("Moth", [
    "Describe its relationship with light.",
    "Describe what happens when it appears uninvited.",
    "Describe how it behaves without intention.",
    "Describe the kind of places it is drawn to.",
    "Describe what it ignores while pursuing something else."]),
  ("Penguin", [
    "Describe how it moves compared to its environment.",
    "Describe its relationship with temperature.",
    "Describe how it survives without flight.",
    "Describe its social behavior.",
    "Describe how it navigates land versus elsewhere."]),
  ("Parabola", [
    "Describe its role in motion.",
    "Describe where it naturally appears.",
    "Describe how it balances symmetry and change.",
    "Describe what happens at its most extreme point.",
    "Describe how it redirects paths."]),
  ("Afghanistan", [
    "Describe its geography through resistance.",
    "Describe the Taliban rule there",
    "Describe how outsiders interact with it.",
    "Describe its oppression of woman.",
    "Describe its relationship with borders."]),
  ("Camera", [
    "It preserves a moment without experiencing it.",
    "It uses light to freeze time.",
    "It has a single eye that blinks only once per memory."]),
  ("Bicycle", [
    "It demands balance to maintain forward motion.",
    "It relies on two circles and human effort.",
    "It has no heart but is powered by your legs."]),
  ("Mirror", [
    "It always tells the truth but only through reversal.",
    "It knows your face better than you do.",
    "It replicates everything it sees but feels none of it."]),
  ("Elephant", [
    "A giant that never forgets a face.",
    "It carries its own water hose wherever it goes.",
    "It has tusks but is known for its gentle memory."]),
  ("Clock", [
    "It has hands but cannot grab anything.",
    "It counts the invisible flow that never stops.",
    "It circles itself twelve times before starting again."]),
  ("Ladder", [
    "It provides steps to where you cannot reach.",
    "It leans on things to help you rise higher.",
    "It has rungs but no melody."]),
  ("Candle", [
    "It spends its life melting for your sight.",
    "It consumes itself to produce a tiny star.",
    "It dies if you breathe on it too hard."]),
  ("Compass", [
    "A needle that is obsessed with only one direction.",
    "It helps you find your way when all paths look the same.",
    "It speaks of North without ever going there."]),
  ("Octopus", [
    "A creature of the deep with three hearts and blue blood.",
    "It can change its shape and color to disappear.",
    "It has eight limbs that can each think for themselves."])]

/-- `WORDS.keys()` in catalog order. -/
def wordKeys : List String := WORDS.map Prod.fst

/-- `WORDS[word]`: the hint list of a catalog word (empty for unknown keys,
which never occur for words chosen by `start_game`). -/

def hintsFor (w : String) : List String :=
  ((WORDS.find? (fun p => p.1 == w)).map Prod.snd).getD []

def EASY_PROMPT : String :=
  "\nDescribe the word using simple and direct clues.\nNever say the word itself.\nMax 3 sentences.\n"

def MEDIUM_PROMPT : String :=
  "\nDescribe the word by its function and context.\nAvoid naming its category or direct synonyms.\nNever say the word itself.\nMax 3 sentences.\n"

def HARD_PROMPT : String :=
  "\nDescribe the given word as an abstract, indirect riddle.\nRules:\n•  Never say the word itself\n•  Never define it\n•  Speak through implication\n•  Use at most 2 sentences\n"

/-- `prompt_for_question(n, level)`: selects the system instruction.  Note
that the parameter `n` is ignored by the source — only `level` matters. -/

def prompt_for_question (n level : Nat) : String :=
  if level = 1 then EASY_PROMPT
  else if level = 2 then MEDIUM_PROMPT
  else HARD_PROMPT

/-- The initial value of the global `GAME` dictionary. -/
def initGAME : Game where
  word := none
  hints := []
  hint_index := 0
  question_index := 0
  messages := []
  finished := false
  used_words := ∅
  level := 1
  session_history := []
  current_guesses := 0
  current_hints := 0

/-- Python's `str.lower()` restricted to the ASCII range (all catalog data is
ASCII). -/

def pyLower (s : String) : String := ⟨s.data.map Char.toLower⟩

/-- Python's `str.strip()`: drop leading and trailing whitespace. -/
def pyStrip (s : String) : String :=
  ⟨((s.data.dropWhile Char.isWhitespace).reverse.dropWhile Char.isWhitespace).reverse⟩

/-- `random.choice(l)` with the random draw supplied as an index oracle `c`;
any element of a nonempty `l` is reachable. -/

def pyChoice (l : List String) (c : Nat) : String := l.getD (c % l.length) ""

/-- `random.sample(l, n)` with the random draw supplied as the list `idxs` of
selected positions, in selection order. -/

def pySample (l : List String) (idxs : List Nat) : List String :=
  idxs.map (fun i => l.getD i "")

/-- Admissible draws of `random.sample(l, n)`: `n` distinct in-range
positions, in an arbitrary selection order. -/

def SampleDraw (l : List String) (n : Nat) (idxs : List Nat) : Prop :=
  idxs.length = n ∧ idxs.Nodup ∧ ∀ i ∈ idxs, i < l.length

/-- The JSON payload returned by `POST /start`. -/
structure StartResponse where
  question : Nat
  difficulty : String
  level : Nat
  text : String
deriving DecidableEq

/-- The candidate pool `available_words` computed inside `start_game`. -/
def availableWords (g : Game) : List String :=
  wordKeys.filter (fun w => decide (w ∉ g.used_words))

/-- The word picked by `start_game` for state `g` and choice draw `c`
(after the silent refill when the pool is empty). -/

def chosenWord (g : Game) (c : Nat) : String :=
  if availableWords g = [] then pyChoice wordKeys c else pyChoice (availableWords g) c

/-- `POST /start` handler `start_game(session_reset)`.  `c` is the
`random.choice` draw, `idxs` the `random.sample` draw, `gen` the external
text generator. -/

def start_game (g : Game) (session_reset : Bool) (c : Nat) (idxs : List Nat)
    (gen : List Message → String) : Game × StartResponse :=
  let g := if session_reset then
      { g with level := 1, session_history := [], used_words := ∅ } else g
  let g' := if availableWords g = [] then { g with used_words := ∅ } else g
  let word := chosenWord g c
  let g2 := { g' with used_words := insert word g'.used_words }
  let selected_hints := pySample (hintsFor word) idxs
  let g3 := { g2 with
    word := some word
    hints := selected_hints
    hint_index := 0
    question_index := 1
    finished := false
    current_guesses := 0
    current_hints := 1 }
  let system_prompt := prompt_for_question 1 g3.level
  let msgs : List Message := [⟨"system", system_prompt⟩, ⟨"user", "Word: " ++ word⟩]
  let clue := gen msgs
  let g4 := { g3 with messages := msgs ++ [⟨"assistant", clue⟩] }
  (g4, { question := 1
         difficulty := ["easy", "medium", "hard"].getD (g4.level - 1) ""
         level := g4.level
         text := clue })

/-- The JSON payload returned by `POST /next`: the finished-guard error, the
clue-exhaustion signal, or a clue. -/

inductive NextResponse where
  | gameOver : NextResponse
  | noMoreHints : NextResponse
  | clue (question : Nat) (difficulty : String) (text : String) : NextResponse
deriving DecidableEq

/-- The client-facing difficulty label computed in `next_hint` from the
clue counter alone. -/

def clueDifficulty (q : Nat) : String :=
  if q ≤ 4 then "easy" else if q ≤ 8 then "medium" else "hard"

/-- `POST /next` handler `next_hint()`. -/
def next_hint (g : Game) (gen : List Message → String) : Game × NextResponse :=
  if g.finished then (g, .gameOver)
  else
    let g := { g with
      question_index := g.question_index + 1
      current_hints := g.current_hints + 1 }
    if g.question_index > 10 then
      ({ g with finished := true }, .noMoreHints)
    else
      let system_prompt := prompt_for_question g.question_index g.level
      let g := { g with messages := g.messages.set 0 ⟨"system", system_prompt⟩ }
      let step : Game × String :=
        if g.hint_index < g.hints.length then
          ({ g with hint_index := g.hint_index + 1 },
           "Answer this hint indirectly: " ++ g.hints.getD g.hint_index "")
        else
          (g, "Give another indirect clue. Do not repeat previous clues.")
      let g := { step.1 with messages := step.1.messages ++ [(⟨"user", step.2⟩ : Message)] }
      let reply := gen g.messages
      let g := { g with messages := g.messages ++ [(⟨"assistant", reply⟩ : Message)] }
      (g, .clue g.question_index (clueDifficulty g.question_index) reply)

/-- The JSON payload returned by `POST /guess`. -/
inductive GuessResponse where
  | notStarted : GuessResponse
  | correct (message : String) (stats : Stats) (session_complete : Bool)
      (session_history : List Stats) : GuessResponse
  | wrong : GuessResponse
deriving DecidableEq

/-- The score table `base_scores = {1: 50, 2: 75, 3: 100}` with `.get`
default `100`. -/

def base_scores (level : Nat) : Nat :=
  if level = 1 then 50 else if level = 2 then 75 else if level = 3 then 100 else 100

/-- `POST /guess` handler `guess(request)`. -/
def guess (g : Game) (guessText : String) : Game × GuessResponse :=
  match g.word with
  | none => (g, .notStarted)
  | some w =>
    let g := { g with current_guesses := g.current_guesses + 1 }
    let user_guess := pyLower (pyStrip guessText)
    let answer := pyLower w
    if user_guess = answer then
      let g := { g with finished := true }
      let final_score := base_scores g.level
      let stats : Stats :=
        { level := g.level
          difficulty := ["Easy", "Medium", "Hard"].getD (g.level - 1) ""
          word := w
          guesses := g.current_guesses
          hints := g.current_hints
          score := final_score }
      let g := { g with session_history := g.session_history ++ [stats] }
      let is_session_complete : Bool := decide (3 ≤ g.level)
      let g := if 3 ≤ g.level then g else { g with level := g.level + 1 }
      (g, .correct ("Correct! The word was " ++ w ++ "!") stats is_session_complete
        g.session_history)
    else
      (g, .wrong)

def gameAfterFinish : Game :=
  { initGAME with
    word := some "Moth"
    finished := true
    question_index := 5
    current_hints := 5 }

def gameMidRound : Game :=
  { initGAME with
    word := some "Moth"
    current_hints := 7
    current_guesses := 4 }

def gameLevelOneRound : Game := { initGAME with word := some "Moth" }

def gamePenguinRound : Game := { initGAME with word := some "Penguin" }

def gameClueFour : Game :=
  { initGAME with
    word := some "Clock"
    question_index := 4
    messages := [⟨"system", MEDIUM_PROMPT⟩, ⟨"user", "Word: Clock"⟩]
    level := 2 }

def ClueInv (g : Game) : Prop :=
  g.question_index ≤ 11 ∧ (11 ≤ g.question_index → g.finished = true)

def gameAtClueTen : Game :=
  { initGAME with word := some "Clock", question_index := 10 }

def startsSeq (gen : List Message → String) : Game → List (Nat × List Nat) → Game
  | g, [] => g
  | g, (c, idxs) :: rest => startsSeq gen (start_game g false c idxs gen).1 rest

def thirteenDraws : List (Nat × List Nat) := List.replicate 13 (0, [0, 1])

/-! ### Helper lemmas and claim theorems -/

lemma wordKeys_ne_nil : wordKeys ≠ [] := by decide

lemma wordKeys_card : wordKeys.toFinset.card = 13 := by decide

lemma hintsFor_three_le : ∀ w ∈ wordKeys, 3 ≤ (hintsFor w).length := by decide

lemma pyStrip_wordKeys : ∀ w ∈ wordKeys, pyStrip w = w := by decide

lemma getD_mem {l : List String} {i : Nat} (h : i < l.length) : l.getD i "" ∈ l := by
  rw [List.getD_eq_getElem?_getD, List.getElem?_eq_getElem h]
  exact List.getElem_mem h

lemma pyChoice_mem {l : List String} (hl : l ≠ []) (c : Nat) : pyChoice l c ∈ l := by
  have hpos : 0 < l.length := List.length_pos.mpr hl
  exact getD_mem (Nat.mod_lt _ hpos)

lemma mem_availableWords {g : Game} {w : String} :
    w ∈ availableWords g ↔ w ∈ wordKeys ∧ w ∉ g.used_words := by
  simp [availableWords]

lemma availableWords_eq_nil {g : Game} :
    availableWords g = [] ↔ ∀ w ∈ wordKeys, w ∈ g.used_words := by
  simp [availableWords, List.filter_eq_nil_iff]

lemma chosenWord_mem (g : Game) (c : Nat) : chosenWord g c ∈ wordKeys := by
  unfold chosenWord
  split
  · exact pyChoice_mem wordKeys_ne_nil c
  · rename_i h
    exact (mem_availableWords.mp (pyChoice_mem h c)).1

/-- Claim C9: on an active unfinished round, a guess that does not match the
secret word increments `current_guesses` and changes nothing else — the whole
resulting state equals the old one with only the guess counter bumped, and the
incorrect-result is returned. -/
theorem C9_wrong_frame (g : Game) (t w : String) (hw : g.word = some w)
    (hf : g.finished = false) (hne : pyLower (pyStrip t) ≠ pyLower w) :
    guess g t = ({ g with current_guesses := g.current_guesses + 1 }, .wrong) := by
  unfold guess
  rw [hw]
  simp only [if_neg hne]

lemma availableWords_empty_used (g : Game) (h : g.used_words = ∅) :
    availableWords g = wordKeys := by
  simp [availableWords, h]

lemma start_game_eq (g : Game) (c : Nat) (idxs : List Nat) (gen : List Message → String) :
    start_game g false c idxs gen =
      ({ g with
          used_words := insert (chosenWord g c)
            (if availableWords g = [] then ∅ else g.used_words)
          word := some (chosenWord g c)
          hints := pySample (hintsFor (chosenWord g c)) idxs
          hint_index := 0
          question_index := 1
          finished := false
          current_guesses := 0
          current_hints := 1
          messages := [⟨"system", prompt_for_question 1 g.level⟩,
                       ⟨"user", "Word: " ++ chosenWord g c⟩,
                       ⟨"assistant", gen [⟨"system", prompt_for_question 1 g.level⟩,
                                          ⟨"user", "Word: " ++ chosenWord g c⟩]⟩] },
       { question := 1
         difficulty := ["easy", "medium", "hard"].getD (g.level - 1) ""
         level := g.level
         text := gen [⟨"system", prompt_for_question 1 g.level⟩,
                      ⟨"user", "Word: " ++ chosenWord g c⟩] }) := by
  unfold start_game
  by_cases h : availableWords g = [] <;>
    simp only [if_pos, if_neg, h, Bool.false_eq_true, ↓reduceIte] <;> rfl

lemma start_game_reset_eq (g : Game) (c : Nat) (idxs : List Nat) (gen : List Message → String) :
    start_game g true c idxs gen =
      start_game { g with level := 1, session_history := [], used_words := ∅ }
        false c idxs gen := by
  unfold start_game
  rfl

/-- Claim C1 counterexample: with `finished = true` and an active word, `guess`
still increments `current_guesses` — the claim that `evaluateGuess` performs a
guard-reported no-op on a finished round is false of the code, which guards
only on `word is None`. -/
theorem C1_counterexample :
    gameAfterFinish.finished = true ∧
    (guess gameAfterFinish "zzz").1.current_guesses =
      gameAfterFinish.current_guesses + 1 := by
  exact ⟨rfl, rfl⟩

/-- Claim C1 (amended): once `finished` is true, `next_hint` returns the
"Game over" signal with no state change (in particular `question_index` is
untouched); `guess`, however, has no finished guard — whenever a word is set
it increments `current_guesses` even on a finished round. -/
theorem C1_terminal (g : Game) (gen : List Message → String) (t w : String)
    (hf : g.finished = true) (hw : g.word = some w) :
    next_hint g gen = (g, .gameOver) ∧
    (guess g t).1.current_guesses = g.current_guesses + 1 := by
  constructor
  · unfold next_hint
    rw [if_pos hf]
  · simp only [guess, hw]
    split
    · split <;> rfl
    · rfl

/-- Witness for C1 at a concrete finished round. -/
theorem C1_terminal_witness :
    next_hint gameAfterFinish (fun _ => "") = (gameAfterFinish, .gameOver) ∧
    (guess gameAfterFinish "zzz").1.current_guesses =
      gameAfterFinish.current_guesses + 1 :=
  C1_terminal gameAfterFinish (fun _ => "") "zzz" "Moth" rfl rfl

/-- Claim C2 counterexample: the draw `[1, 0]` is an admissible
`random.sample` selection order of size `min 3 2 = 2` for the word "Camera",
and the resulting `hints` list of `start_game` is NOT a sublist (order-
preserving subsequence) of the catalog hint list — `random.sample` returns
elements in selection order, not catalog order. -/
theorem C2_counterexample :
    SampleDraw (hintsFor "Camera") (min (hintsFor "Camera").length 2) [1, 0] ∧
    (start_game initGAME false 4 [1, 0] (fun _ => "")).1.word = some "Camera" ∧
    ¬ List.Sublist (start_game initGAME false 4 [1, 0] (fun _ => "")).1.hints
        (hintsFor "Camera") := by
  refine ⟨⟨by decide, by decide, by decide⟩, by decide, by decide⟩

/-- Claim C2 (amended): for every admissible `random.sample` draw of size
`min |hints| n` with `n` equal to 2 or 3, the selected hint list of a started round
has length exactly `n` (so 2 or 3, never exceeding the word's hint count), and
its elements are drawn without replacement (distinct positions) from the
chosen word's catalog hint list; catalog relative order is not guaranteed. -/
theorem C2_sample_shape (g : Game) (c n : Nat) (idxs : List Nat)
    (gen : List Message → String) (hn2 : 2 ≤ n) (hn3 : n ≤ 3)
    (hdraw : SampleDraw (hintsFor (chosenWord g c))
      (min (hintsFor (chosenWord g c)).length n) idxs) :
    (start_game g false c idxs gen).1.hints.length = n ∧
    2 ≤ (start_game g false c idxs gen).1.hints.length ∧
    (start_game g false c idxs gen).1.hints.length ≤ 3 ∧
    (start_game g false c idxs gen).1.hints.length ≤
      (hintsFor (chosenWord g c)).length ∧
    (∀ s ∈ (start_game g false c idxs gen).1.hints,
      s ∈ hintsFor (chosenWord g c)) ∧
    idxs.Nodup ∧
    (start_game g false c idxs gen).1.hints =
      idxs.map (fun i => (hintsFor (chosenWord g c)).getD i "") := by
  obtain ⟨hlen, hnd, hbound⟩ := hdraw
  have h3 : 3 ≤ (hintsFor (chosenWord g c)).length :=
    hintsFor_three_le _ (chosenWord_mem g c)
  have hmin : min (hintsFor (chosenWord g c)).length n = n := by omega
  have hhints : (start_game g false c idxs gen).1.hints =
      pySample (hintsFor (chosenWord g c)) idxs := by
    rw [start_game_eq]
  have hlen' : (start_game g false c idxs gen).1.hints.length = n := by
    rw [hhints]; simpa [pySample, hmin] using hlen
  refine ⟨hlen', by omega, by omega, by omega, ?_, hnd, by rw [hhints]; rfl⟩
  intro s hs
  rw [hhints] at hs
  obtain ⟨i, hi, rfl⟩ := List.mem_map.mp hs
  exact getD_mem (hbound i hi)

/-- Witness for C2 at a concrete draw. -/
theorem C2_sample_shape_witness :
    2 ≤ 2 ∧ 2 ≤ 3 ∧
    SampleDraw (hintsFor (chosenWord initGAME 4))
      (min (hintsFor (chosenWord initGAME 4)).length 2) [0, 2] ∧
    (start_game initGAME false 4 [0, 2] (fun _ => "")).1.hints.length = 2 :=
  ⟨by decide, by decide, ⟨by decide, by decide, by decide⟩,
    (C2_sample_shape initGAME 4 2 [0, 2] (fun _ => "") (by decide) (by decide)
      ⟨by decide, by decide, by decide⟩).1⟩

/-- Claim C5: `guess` normalizes the guess by stripping whitespace and
lowercasing, compares it with the lowercased secret word, and declares a
correct guess iff the normalized strings are equal (for catalog words,
stripping the secret word is the identity, so trimming-and-casefolding both
sides is equivalent); concretely, with secret word "Moth", guess "  MOTH " is
correct and "Mothy" is incorrect. -/
theorem C5_normalization (g : Game) (t w : String) (hw : g.word = some w)
    (hcat : w ∈ wordKeys) :
    ((∃ m st sc hist, (guess g t).2 = .correct m st sc hist) ↔
      pyLower (pyStrip t) = pyLower (pyStrip w)) ∧
    (∃ m st sc hist,
      (guess { initGAME with word := some "Moth" } "  MOTH ").2 =
        .correct m st sc hist) ∧
    (guess { initGAME with word := some "Moth" } "Mothy").2 = .wrong := by
  refine ⟨?_, ⟨_, _, _, _, rfl⟩, rfl⟩
  rw [pyStrip_wordKeys w hcat]
  simp only [guess, hw]
  by_cases h : pyLower (pyStrip t) = pyLower w
  · simp only [if_pos h]
    exact ⟨fun _ => h, fun _ => ⟨_, _, _, _, rfl⟩⟩
  · simp only [if_neg h]
    constructor
    · rintro ⟨m, st, sc, hist, hEq⟩
      cases hEq
    · intro h'; exact absurd h' h

/-- Witness for C5 on the concrete "Moth" round. -/
theorem C5_normalization_witness :
    (∃ m st sc hist,
      (guess { initGAME with word := some "Moth" } "  MOTH ").2 =
        .correct m st sc hist) ∧
    (guess { initGAME with word := some "Moth" } "Mothy").2 = .wrong :=
  (C5_normalization { initGAME with word := some "Moth" } "  MOTH " "Moth"
    rfl (by decide)).2

/-- Claim C6: the score of a won round is the flat per-level lookup
`base_scores` — 50 at level 1, 75 at level 2, 100 at level 3 — independent of
`current_guesses` and `current_hints`, which appear in the stats record but
never in the score. -/
theorem C6_flat_scoring (g : Game) (t w : String) (hw : g.word = some w)
    (hmatch : pyLower (pyStrip t) = pyLower w) :
    (∃ m sc hist, (guess g t).2 = .correct m
      { level := g.level
        difficulty := ["Easy", "Medium", "Hard"].getD (g.level - 1) ""
        word := w
        guesses := g.current_guesses + 1
        hints := g.current_hints
        score := base_scores g.level } sc hist) ∧
    base_scores 1 = 50 ∧ base_scores 2 = 75 ∧ base_scores 3 = 100 := by
  refine ⟨?_, rfl, rfl, rfl⟩
  simp only [guess, hw, if_pos hmatch]
  exact ⟨_, _, _, rfl⟩

/-- Witness for C6: a level-1 win after 7 hints and 4 prior guesses still
scores exactly 50. -/
theorem C6_flat_scoring_witness :
    ∃ m sc hist,
      (guess gameMidRound "moth").2 = .correct m
        { level := 1
          difficulty := "Easy"
          word := "Moth"
          guesses := 5
          hints := 7
          score := 50 } sc hist :=
  (C6_flat_scoring gameMidRound "moth" "Moth" rfl (by decide)).1

/-- Claim C3: winning a round at session level L (1 ≤ L ≤ 3) appends exactly
one history record, reports `session_complete` iff L = 3, increments the
level when L < 3 and never past 3; and a `start_game` with the explicit reset
flag restores level 1 with empty history, `used_words` holding only the newly
chosen word. -/
theorem C3_progression (g g2 : Game) (t w : String) (c : Nat) (idxs : List Nat)
    (gen : List Message → String) (hw : g.word = some w)
    (h1 : 1 ≤ g.level) (h3 : g.level ≤ 3)
    (hmatch : pyLower (pyStrip t) = pyLower w) :
    (∃ m st, (guess g t).2 =
      .correct m st (decide (g.level = 3)) (g.session_history ++ [st])) ∧
    (∃ st, (guess g t).1.session_history = g.session_history ++ [st]) ∧
    (guess g t).1.level = (if g.level < 3 then g.level + 1 else g.level) ∧
    (guess g t).1.level ≤ 3 ∧
    (start_game g2 true c idxs gen).1.level = 1 ∧
    (start_game g2 true c idxs gen).1.session_history = [] ∧
    (start_game g2 true c idxs gen).2.level = 1 ∧
    (∃ w2 ∈ wordKeys, (start_game g2 true c idxs gen).1.used_words = {w2}) := by
  have hdec : decide (3 ≤ g.level) = decide (g.level = 3) :=
    decide_eq_decide.mpr (by omega)
  have hreset : start_game g2 true c idxs gen =
      start_game { g2 with level := 1, session_history := [], used_words := ∅ }
        false c idxs gen := start_game_reset_eq g2 c idxs gen
  have havail : availableWords
      { g2 with level := 1, session_history := [], used_words := ∅ } = wordKeys :=
    availableWords_empty_used _ rfl
  have hnonempty : ¬ availableWords
      { g2 with level := 1, session_history := [], used_words := ∅ } = [] := by
    rw [havail]; exact wordKeys_ne_nil
  refine ⟨?_, ?_, ?_, ?_, ?_, ?_, ?_, ?_⟩
  · simp only [guess, hw, if_pos hmatch, hdec]
    by_cases hlev : 3 ≤ g.level
    · simp only [if_pos hlev]
      exact ⟨_, _, rfl⟩
    · simp only [if_neg hlev]
      exact ⟨_, _, rfl⟩
  · simp only [guess, hw, if_pos hmatch]
    by_cases hlev : 3 ≤ g.level
    · simp only [if_pos hlev]
      exact ⟨_, rfl⟩
    · simp only [if_neg hlev]
      exact ⟨_, rfl⟩
  · simp only [guess, hw, if_pos hmatch]
    by_cases hlev : 3 ≤ g.level
    · simp only [if_pos hlev]
      rw [if_neg (by omega)]
    · simp only [if_neg hlev]
      rw [if_pos (by omega)]
  · simp only [guess, hw, if_pos hmatch]
    by_cases hlev : 3 ≤ g.level
    · simp only [if_pos hlev]; omega
    · simp only [if_neg hlev]; show g.level + 1 ≤ 3; omega
  · rw [hreset, start_game_eq]
  · rw [hreset, start_game_eq]
  · rw [hreset, start_game_eq]
  · rw [hreset, start_game_eq]
    refine ⟨chosenWord
      { g2 with level := 1, session_history := [], used_words := ∅ } c,
      chosenWord_mem _ c, ?_⟩
    simp only [if_neg hnonempty]
    simp

/-- Witness for C3 at a concrete level-1 win and a concrete reset. -/
theorem C3_progression_witness :
    (guess gameLevelOneRound "Moth").1.level = 2 ∧
    (guess gameLevelOneRound "Moth").1.level ≤ 3 ∧
    (start_game initGAME true 0 [] (fun _ => "")).1.level = 1 ∧
    (start_game initGAME true 0 [] (fun _ => "")).1.session_history = [] := by
  have h := C3_progression gameLevelOneRound initGAME "Moth" "Moth" 0 []
    (fun _ => "") rfl (by decide) (by decide) (by decide)
  refine ⟨?_, h.2.2.2.1, h.2.2.2.2.1, h.2.2.2.2.2.1⟩
  rw [h.2.2.1]
  decide

/-- Witness for C9 on a concrete wrong guess. -/
theorem C9_wrong_frame_witness :
    guess gamePenguinRound "Moth" =
      ({ gamePenguinRound with current_guesses := 1 }, .wrong) :=
  C9_wrong_frame gamePenguinRound "Moth" "Penguin" rfl rfl (by decide)

/-- Claim C10: `start_game` without the reset flag leaves `level` and
`session_history` exactly as before, and the only change to `used_words` is
the insertion of the newly chosen catalog word (on exhaustion, into the
refilled-empty pool). -/
theorem C10_start_frame (g : Game) (c : Nat) (idxs : List Nat)
    (gen : List Message → String) :
    (start_game g false c idxs gen).1.level = g.level ∧
    (start_game g false c idxs gen).1.session_history = g.session_history ∧
    (start_game g false c idxs gen).1.used_words =
      insert (chosenWord g c)
        (if availableWords g = [] then ∅ else g.used_words) ∧
    chosenWord g c ∈ wordKeys := by
  rw [start_game_eq]
  exact ⟨rfl, rfl, rfl, chosenWord_mem g c⟩

lemma head?_messages (msgs : List Message) (x u a : Message) (h : msgs ≠ []) :
    ((msgs.set 0 x ++ [u]) ++ [a]).head? = some x := by
  cases msgs with
  | nil => exact absurd rfl h
  | cons b bs => rfl

/-- Claim C8: the system instruction template is selected solely by session
level (1 → easy, 2 → medium, 3 → hard prompt text, for every clue count),
while the client-facing difficulty label returned by `next_hint` is determined
solely by the clue counter (easy for 1–4, medium for 5–8, hard for 9–10). -/
theorem C8_dual_difficulty (g : Game) (gen : List Message → String) (n m l : Nat) :
    (prompt_for_question n 1 = EASY_PROMPT ∧
     prompt_for_question n 2 = MEDIUM_PROMPT ∧
     prompt_for_question n 3 = HARD_PROMPT ∧
     prompt_for_question n l = prompt_for_question m l) ∧
    (∀ q, (1 ≤ q → q ≤ 4 → clueDifficulty q = "easy") ∧
          (5 ≤ q → q ≤ 8 → clueDifficulty q = "medium") ∧
          (9 ≤ q → q ≤ 10 → clueDifficulty q = "hard")) ∧
    (g.finished = false → g.question_index + 1 ≤ 10 → g.messages ≠ [] →
      (∃ text, (next_hint g gen).2 =
        .clue (g.question_index + 1) (clueDifficulty (g.question_index + 1)) text) ∧
      (next_hint g gen).1.messages.head? =
        some ⟨"system", prompt_for_question (g.question_index + 1) g.level⟩) := by
  refine ⟨⟨rfl, rfl, rfl, rfl⟩, ?_, ?_⟩
  · intro q
    refine ⟨fun _ h4 => ?_, fun h5 h8 => ?_, fun h9 _ => ?_⟩
    · unfold clueDifficulty; rw [if_pos h4]
    · unfold clueDifficulty; rw [if_neg (by omega), if_pos h8]
    · unfold clueDifficulty; rw [if_neg (by omega), if_neg (by omega)]
  · intro hf h10 hmsgs
    simp only [next_hint, hf, Bool.false_eq_true, if_false,
      if_neg (by omega : ¬ g.question_index + 1 > 10)]
    constructor
    · by_cases hh : g.hint_index < g.hints.length
      · rw [if_pos hh]; exact ⟨_, rfl⟩
      · rw [if_neg hh]; exact ⟨_, rfl⟩
    · by_cases hh : g.hint_index < g.hints.length
      · rw [if_pos hh]; exact head?_messages _ _ _ _ hmsgs
      · rw [if_neg hh]; exact head?_messages _ _ _ _ hmsgs

/-- Witness for C8: at clue count 5 in a level-2 round the label is "medium"
and the conversation head is the level-2 template. -/
theorem C8_dual_difficulty_witness :
    (∃ text, (next_hint gameClueFour (fun _ => "r")).2 =
      .clue 5 (clueDifficulty 5) text) ∧
    (next_hint gameClueFour (fun _ => "r")).1.messages.head? =
      some ⟨"system", MEDIUM_PROMPT⟩ ∧
    clueDifficulty 5 = "medium" := by
  have h := (C8_dual_difficulty gameClueFour (fun _ => "r") 1 2 3).2.2 rfl
    (by decide) (by decide)
  have hl := ((C8_dual_difficulty gameClueFour (fun _ => "r") 1 2 3).2.1 5).2.1
    (by decide) (by decide)
  exact ⟨h.1, h.2, hl⟩

/-- Round-lifecycle invariant: the clue counter never passes 11, and reaching
11 forces the finished flag. -/

lemma next_hint_finished (g : Game) (gen : List Message → String)
    (hf : g.finished = true) : next_hint g gen = (g, .gameOver) := by
  unfold next_hint
  rw [if_pos hf]

lemma next_hint_exhaust (g : Game) (gen : List Message → String)
    (hf : g.finished = false) (h10 : g.question_index + 1 > 10) :
    next_hint g gen =
      ({ g with
          question_index := g.question_index + 1
          current_hints := g.current_hints + 1
          finished := true }, .noMoreHints) := by
  simp only [next_hint, hf, Bool.false_eq_true, if_false, if_pos h10]

lemma next_hint_question_fields (g : Game) (gen : List Message → String)
    (hf : g.finished = false) (h10 : ¬ g.question_index + 1 > 10) :
    (next_hint g gen).1.question_index = g.question_index + 1 ∧
    (next_hint g gen).1.finished = false := by
  simp only [next_hint, hf, Bool.false_eq_true, if_false, if_neg h10]
  by_cases hh : g.hint_index < g.hints.length
  · rw [if_pos hh]; exact ⟨rfl, rfl⟩
  · rw [if_neg hh]; exact ⟨rfl, rfl⟩

lemma guess_question_fields (g : Game) (t : String) :
    (guess g t).1.question_index = g.question_index ∧
    ((guess g t).1.finished = g.finished ∨ (guess g t).1.finished = true) := by
  cases hw : g.word with
  | none => simp [guess, hw]
  | some w =>
    by_cases h : pyLower (pyStrip t) = pyLower w
    · by_cases hl : 3 ≤ g.level
      · simp [guess, hw, h, hl]
      · simp [guess, hw, h, hl]
    · simp [guess, hw, h]

/-- Claim C4: `question_index` never exceeds 11 — `ClueInv` holds initially
and is preserved by every operation; the `next_hint` call that pushes the
counter past 10 sets `finished`, returns the end-of-clues signal, and its
result does not depend on the external generator (no model call); `guess`
never changes the counter and a finished round makes `next_hint` a no-op. -/
theorem C4_clue_cap (g : Game) (gen gen2 : List Message → String) (t : String)
    (r : Bool) (c : Nat) (idxs : List Nat) :
    ClueInv initGAME ∧
    ClueInv (start_game g r c idxs gen).1 ∧
    (ClueInv g → ClueInv (next_hint g gen).1) ∧
    (ClueInv g → ClueInv (guess g t).1) ∧
    (ClueInv g → (next_hint g gen).1.question_index ≤ 11) ∧
    (g.finished = false → 10 ≤ g.question_index →
      next_hint g gen =
        ({ g with
            question_index := g.question_index + 1
            current_hints := g.current_hints + 1
            finished := true }, .noMoreHints) ∧
      next_hint g gen = next_hint g gen2) ∧
    (guess g t).1.question_index = g.question_index ∧
    (g.finished = true → next_hint g gen = (g, .gameOver)) := by
  have hstart : (start_game g r c idxs gen).1.question_index = 1 := by
    cases r <;> rfl
  have hnextInv : ClueInv g → ClueInv (next_hint g gen).1 := by
    rintro ⟨hle, himp⟩
    by_cases hf : g.finished = true
    · rw [next_hint_finished g gen hf]; exact ⟨hle, himp⟩
    · have hf' : g.finished = false := by
        cases hfin : g.finished
        · rfl
        · exact absurd hfin hf
      have hq10 : g.question_index ≤ 10 := by
        by_contra hq
        have h11 := himp (by omega)
        rw [hf'] at h11
        exact Bool.noConfusion h11
      by_cases h10 : g.question_index + 1 > 10
      · rw [next_hint_exhaust g gen hf' h10]
        exact ⟨by show g.question_index + 1 ≤ 11; omega, fun _ => rfl⟩
      · obtain ⟨hqi, hfin⟩ := next_hint_question_fields g gen hf' h10
        constructor
        · rw [hqi]; omega
        · intro h11
          rw [hqi] at h11
          exact absurd h11 (by omega)
  refine ⟨⟨by decide, fun h => absurd h (by decide)⟩,
    ⟨by rw [hstart]; omega, fun h => by rw [hstart] at h; exact absurd h (by omega)⟩,
    hnextInv, ?_, fun hInv => (hnextInv hInv).1, ?_,
    (guess_question_fields g t).1, next_hint_finished g gen⟩
  · rintro ⟨hle, himp⟩
    obtain ⟨hqi, hfin⟩ := guess_question_fields g t
    refine ⟨by rw [hqi]; exact hle, ?_⟩
    intro h11
    rw [hqi] at h11
    rcases hfin with h | h
    · rw [h]; exact himp h11
    · exact h
  · intro hf h10
    have h10' : g.question_index + 1 > 10 := by omega
    constructor
    · exact next_hint_exhaust g gen hf h10'
    · rw [next_hint_exhaust g gen hf h10', next_hint_exhaust g gen2 hf h10']

/-- Witness for C4 at a concrete round with the counter at 10. -/
theorem C4_clue_cap_witness :
    next_hint gameAtClueTen (fun _ => "") =
      ({ gameAtClueTen with
          question_index := 11
          current_hints := 1
          finished := true }, .noMoreHints) ∧
    next_hint gameAtClueTen (fun _ => "") =
      next_hint gameAtClueTen (fun _ => "other") ∧
    (guess gameAtClueTen "x").1.question_index = 10 := by
  have h := C4_clue_cap gameAtClueTen (fun _ => "") (fun _ => "other") "x" false 0 []
  have he := h.2.2.2.2.2.1 rfl (by decide)
  exact ⟨he.1, he.2, h.2.2.2.2.2.2.1⟩

/-- A sequence of `POST /start` calls with no reset, one per random draw
`(c, idxs)` in the list. -/

lemma start_game_used_step (g : Game) (c : Nat) (idxs : List Nat)
    (gen : List Message → String)
    (hsub : g.used_words ⊆ wordKeys.toFinset) (hcard : g.used_words.card < 13) :
    (start_game g false c idxs gen).1.used_words ⊆ wordKeys.toFinset ∧
    (start_game g false c idxs gen).1.used_words.card = g.used_words.card + 1 := by
  have havail : availableWords g ≠ [] := by
    intro h
    have hall := availableWords_eq_nil.mp h
    have hss : wordKeys.toFinset ⊆ g.used_words := by
      intro w hw
      exact hall w (List.mem_toFinset.mp hw)
    have := Finset.card_le_card hss
    rw [wordKeys_card] at this
    omega
  have hchosen : chosenWord g c ∈ availableWords g := by
    unfold chosenWord
    rw [if_neg havail]
    exact pyChoice_mem havail c
  obtain ⟨hmemk, hnotused⟩ := mem_availableWords.mp hchosen
  have hused : (start_game g false c idxs gen).1.used_words =
      insert (chosenWord g c) g.used_words := by
    rw [start_game_eq]
    simp only [if_neg havail]
  rw [hused]
  constructor
  · intro w hw
    rcases Finset.mem_insert.mp hw with rfl | hw2
    · exact List.mem_toFinset.mpr hmemk
    · exact hsub hw2
  · rw [Finset.card_insert_of_not_mem hnotused]

lemma startsSeq_used (gen : List Message → String) :
    ∀ (ds : List (Nat × List Nat)) (g : Game),
      g.used_words ⊆ wordKeys.toFinset →
      g.used_words.card + ds.length ≤ 13 →
      (startsSeq gen g ds).used_words ⊆ wordKeys.toFinset ∧
      (startsSeq gen g ds).used_words.card = g.used_words.card + ds.length := by
  intro ds
  induction ds with
  | nil => intro g hsub _; exact ⟨hsub, by simp [startsSeq]⟩
  | cons d rest ih =>
    intro g hsub hcard
    obtain ⟨c, idxs⟩ := d
    simp only [List.length_cons] at hcard
    have hstep := start_game_used_step g c idxs gen hsub (by omega)
    have hrec := ih (start_game g false c idxs gen).1 hstep.1
      (by rw [hstep.2]; omega)
    simp only [startsSeq, List.length_cons]
    refine ⟨hrec.1, ?_⟩
    rw [hrec.2, hstep.2]
    omega

/-- Claim C7: starting from a fresh session, any 13 consecutive round starts
with no reset mark all 13 catalog words used; the 14th start finds the pool
empty, silently refills it, selects from the full catalog, and returns a
normal response (never an error). -/
theorem C7_word_exhaustion (gen gen2 : List Message → String)
    (ds : List (Nat × List Nat)) (c : Nat) (idxs : List Nat)
    (hlen : ds.length = 13) :
    (startsSeq gen initGAME ds).used_words = wordKeys.toFinset ∧
    (∀ w ∈ wordKeys, w ∈ (startsSeq gen initGAME ds).used_words) ∧
    availableWords (startsSeq gen initGAME ds) = [] ∧
    chosenWord (startsSeq gen initGAME ds) c = pyChoice wordKeys c ∧
    chosenWord (startsSeq gen initGAME ds) c ∈ wordKeys ∧
    (start_game (startsSeq gen initGAME ds) false c idxs gen2).1.used_words =
      {chosenWord (startsSeq gen initGAME ds) c} ∧
    (start_game (startsSeq gen initGAME ds) false c idxs gen2).2.question = 1 := by
  have hbase := startsSeq_used gen ds initGAME (by simp [initGAME])
    (by simp [initGAME, hlen])
  have heq : (startsSeq gen initGAME ds).used_words = wordKeys.toFinset := by
    apply Finset.eq_of_subset_of_card_le hbase.1
    rw [wordKeys_card, hbase.2, hlen]
    simp [initGAME]
  have hall : ∀ w ∈ wordKeys, w ∈ (startsSeq gen initGAME ds).used_words := by
    intro w hw
    rw [heq]
    exact List.mem_toFinset.mpr hw
  have havail : availableWords (startsSeq gen initGAME ds) = [] :=
    availableWords_eq_nil.mpr hall
  have hchosen : chosenWord (startsSeq gen initGAME ds) c = pyChoice wordKeys c := by
    unfold chosenWord
    rw [if_pos havail]
  refine ⟨heq, hall, havail, hchosen, ?_, ?_, ?_⟩
  · rw [hchosen]
    exact pyChoice_mem wordKeys_ne_nil c
  · rw [start_game_eq]
    simp only [if_pos havail]
    simp
  · rw [start_game_eq]

/-- Witness for C7 on a concrete sequence of 13 draws. -/
theorem C7_word_exhaustion_witness :
    (startsSeq (fun _ => "clue") initGAME thirteenDraws).used_words =
      wordKeys.toFinset ∧
    (start_game (startsSeq (fun _ => "clue") initGAME thirteenDraws) false 0
      [0, 1] (fun _ => "clue")).2.question = 1 := by
  have h := C7_word_exhaustion (fun _ => "clue") (fun _ => "clue")
    thirteenDraws 0 [0, 1] (by decide)
  exact ⟨h.1, h.2.2.2.2.2.2⟩
